import Mathlib

/-!
Shallow embedding of the WCDB repair orchestrator
(`src/repair/repair/Repairman.cpp`) and proofs about its milestone
checkpointing, progress scoring and error escalation behaviour.

The `Repairman` methods are translated function by function from the C++
source.  The collaborators (Assembler, Page Source, Notifier, the
`Progress` and error-escalation base classes) are not part of the given
source file; where a claim depends on them they are modelled from the
specification, with a doc comment saying so.  Assembler / file-probe
outcomes are passed in as explicit boolean oracles, and every call made
to the Assembler is recorded in an instrumentation trace so that
"markAsMilestone was invoked" is an observable fact of the model.
-/

namespace WCDB

/-- Error severity. Modelled from the spec: `level: Warning|Fatal|Critical`
(the `Error` value type is not part of the given source file). -/
inductive Level where
  | Warning
  | Fatal
  | Critical
deriving DecidableEq, Repr

/-- Error category code. Modelled from the spec:
`code: enum (Empty, Corrupt, IOError, ...)`. -/
inductive Code where
  | Empty
  | Corrupt
  | IOError
  | Other
deriving DecidableEq, Repr

/-- Error value. Modelled from the spec: severity, category code, human
message and key/value context, immutable once constructed. -/
structure Error where
  level : Level
  code : Code
  message : String
  infos : List (String × String)
deriving DecidableEq, Repr

/-- The Assembler operations the orchestrator can invoke
(`markAsAssembling`, `markAsMilestone`, `markAsAssembled`,
`assembleTable`, `assembleCell`). -/
inductive AOp where
  | markAsAssembling
  | markAsMilestone
  | markAsAssembled
  | assembleTable
  | assembleCell
deriving DecidableEq, Repr

/-- Whether an Assembler operation is a write operation in the sense of the
spec invariant (`assembleTable`, `assembleCell`, `markAsMilestone`,
`markAsAssembled`; `markAsAssembling` is the gate, not a write). -/
def AOp.isWrite : AOp → Bool
  | .markAsAssembling => false
  | _ => true

/-- Return type of a `Repairman` method, translated from the signatures in
`Repairman.cpp` (`bool markAsAssembling()`, `void markAsMilestone()`,
`bool markAsAssembled()`, `bool assembleTable(...)`,
`void assembleCell(const Cell &)`). -/
inductive CppRet where
  | bool
  | void
deriving DecidableEq, Repr

/-- The C++ return type of the `Repairman` method wrapping each Assembler
operation, read off the declarations in `Repairman.cpp`. -/
def repairmanReturnType : AOp → CppRet
  | .markAsAssembling => .bool
  | .markAsMilestone => .void
  | .markAsAssembled => .bool
  | .assembleTable => .bool
  | .assembleCell => .void

/-- One recorded call to the Assembler: which operation, the success value
the Assembler reported, and (ghost instrumentation) whether assembling had
started and whether a Critical error had been raised at the moment of the
call. -/
structure CallRec where
  op : AOp
  ok : Bool
  assemblingAtCall : Bool
  criticalAtCall : Bool
deriving DecidableEq, Repr

/-- State of one repair session: the fields of `Repairman` from the source
(`m_milestone`, `m_mile`, `m_pageWeight`, `m_cellWeight`), the progress
tracker modelled from the spec (`score`, `committedScore`), ghost flags for
the session protocol, and the instrumentation traces. -/
structure RState where
  path : String
  milestone : Int
  mile : Int
  pageWeight : ℚ
  cellWeight : ℚ
  lastCellCount : Int
  score : ℚ
  committedScore : ℚ
  assembling : Bool
  criticalRaised : Bool
  calls : List CallRec
  broadcast : List Error
deriving DecidableEq, Repr

/-- `Repairman::Repairman(path)`: `m_milestone(5000), m_mile(0),
m_pageWeight(0), m_cellWeight(0)`; nothing opened yet, traces empty. -/
def Repairman.init (path : String) : RState :=
  { path := path
    milestone := 5000
    mile := 0
    pageWeight := 0
    cellWeight := 0
    lastCellCount := 0
    score := 0
    committedScore := 0
    assembling := false
    criticalRaised := false
    calls := []
    broadcast := [] }

/-- Record one call to the Assembler in the instrumentation trace, together
with the ghost flags at the moment of the call. -/
def callAssembler (op : AOp) (ok : Bool) (st : RState) : RState :=
  { st with calls := st.calls ++ [⟨op, ok, st.assembling, st.criticalRaised⟩] }

/-- Modelled from the spec: `Progress::increaseScore` credits a fractional
weight to the running completion score (the `Progress` base class is not in
the given source file). -/
def increaseScore (w : ℚ) (st : RState) : RState :=
  { st with score := st.score + w }

/-- Modelled from the spec: on a successful checkpoint, "fold all progress
accumulated-but-not-yet-committed into the durable score"
(`markFractionalScoreCounted`, not in the given source file). -/
def markFractionalScoreCounted (st : RState) : RState :=
  { st with committedScore := st.score }

/-- Modelled from the spec: `finishProgress` "forces the score to exactly
1.0 on the terminal path" (the `Progress` base class is not in the given
source file). -/
def finishProgress (st : RState) : RState :=
  { st with score := 1 }

/-- `Repairman::onErrorCritical()`: `finishProgress();`. -/
def Repairman.onErrorCritical (st : RState) : RState :=
  finishProgress st

/-- Modelled from the spec: the single escalation policy point
`tryUpgradeError(error)` "broadcasts the (possibly downgraded) error and
returns its resulting severity"; if that severity is Critical, progress is
immediately finalized (`onErrorCritical`).  The base class implementing it
is not in the given source file. -/
def tryUpgradeError (e : Error) (st : RState) : Level × RState :=
  let st1 := { st with broadcast := st.broadcast ++ [e] }
  let st2 :=
    if e.level = Level.Critical then
      Repairman.onErrorCritical { st1 with criticalRaised := true }
    else st1
  (e.level, st2)

/-- `Repairman::tryUpgradeCrawlerError()`: takes the Page Source's error,
downgrades it to Warning when its code is Corrupt, and hands it to the
escalation point.  The pager's current error is passed in explicitly. -/
def Repairman.tryUpgradeCrawlerError (pagerError : Error) (st : RState) :
    Level × RState :=
  let e :=
    if pagerError.code = Code.Corrupt then
      { pagerError with level := Level.Warning }
    else pagerError
  tryUpgradeError e st

/-- `Repairman::tryUpgrateAssemblerError()` (sic): hands the Assembler's
error to the escalation point unmodified.  The assembler's current error is
passed in explicitly. -/
def Repairman.tryUpgrateAssemblerError (assemblerError : Error) (st : RState) :
    Level × RState :=
  tryUpgradeError assemblerError st

/-- Modelled from the spec: `setCriticalErrorWIthSharedThreadedError` (sic,
called from `isEmptyDatabase` but not defined in the given source file)
"escalates the ambient environment error to Critical".  The ambient
threaded error is passed in explicitly. -/
def setCriticalErrorWIthSharedThreadedError (threadedError : Error)
    (st : RState) : RState :=
  (tryUpgradeError { threadedError with level := Level.Critical } st).2

/-- The Warning-level error emitted for an empty database, built exactly as
in `Repairman::isEmptyDatabase`. -/
def emptyError (path : String) : Error :=
  { level := Level.Warning
    code := Code.Empty
    message := "Database is not found or empty."
    infos := [("Path", path)] }

/-- `Repairman::isEmptyDatabase()`: probes the file size (the probe's
outcome `(succeed, fileSize)` and the ambient threaded error are passed in
explicitly); on size 0 either broadcasts the Warning Empty error (probe
succeeded) or escalates the ambient error to Critical (probe failed), and
returns true; otherwise returns false. -/
def Repairman.isEmptyDatabase (succeed : Bool) (fileSize : Nat)
    (threadedError : Error) (st : RState) : Bool × RState :=
  if fileSize = 0 then
    if succeed then
      (true, { st with broadcast := st.broadcast ++ [emptyError st.path] })
    else
      (true, setCriticalErrorWIthSharedThreadedError threadedError st)
  else
    (false, st)

/-- `Repairman::markAsAssembling()`: delegates to the Assembler; on success
returns true (ghost: assembling has started), on failure escalates the
Assembler's error and returns false. -/
def Repairman.markAsAssembling (ok : Bool) (e : Error) (st : RState) :
    Bool × RState :=
  let st1 := callAssembler AOp.markAsAssembling ok st
  if ok then
    (true, { st1 with assembling := true })
  else
    (false, (Repairman.tryUpgrateAssemblerError e st1).2)

/-- `Repairman::markAsMilestone()` (the checkpoint): asks the Assembler to
commit; on success folds the fractional score into the durable score, on
failure escalates the Assembler's error; in both cases `m_mile = 0`
afterwards. -/
def Repairman.markAsMilestone (ok : Bool) (e : Error) (st : RState) : RState :=
  let st1 := callAssembler AOp.markAsMilestone ok st
  let st2 :=
    if ok then markFractionalScoreCounted st1
    else (Repairman.tryUpgrateAssemblerError e st1).2
  { st2 with mile := 0 }

/-- `Repairman::towardMilestone(mile)`: `m_mile += mile; if (m_mile >
m_milestone) markAsMilestone();`. -/
def Repairman.towardMilestone (ok : Bool) (e : Error) (mile : Int)
    (st : RState) : RState :=
  let st1 := { st with mile := st.mile + mile }
  if st1.mile > st1.milestone then Repairman.markAsMilestone ok e st1 else st1

/-- `Repairman::markAsAssembled()`: `result = true; markAsMilestone(); if
(!assembler->markAsAssembled()) { result = false; escalate; }
finishProgress(); return result;`. -/
def Repairman.markAsAssembled (okMile : Bool) (eMile : Error) (okAsm : Bool)
    (eAsm : Error) (st : RState) : Bool × RState :=
  let st1 := Repairman.markAsMilestone okMile eMile st
  let st2 := callAssembler AOp.markAsAssembled okAsm st1
  let st3 :=
    if okAsm then st2 else (Repairman.tryUpgrateAssemblerError eAsm st2).2
  (okAsm, finishProgress st3)

/-- `Repairman::assembleTable(name, sql, sequence)`: on success
`towardMilestone(100)` and return true; on failure escalate and return
false. -/
def Repairman.assembleTable (okT : Bool) (eT : Error) (okM : Bool) (eM : Error)
    (st : RState) : Bool × RState :=
  let st1 := callAssembler AOp.assembleTable okT st
  if okT then
    (true, Repairman.towardMilestone okM eM 100 st1)
  else
    (false, (Repairman.tryUpgrateAssemblerError eT st1).2)

/-- `Repairman::markCellAsCounted()`: `increaseScore(m_cellWeight);`. -/
def Repairman.markCellAsCounted (st : RState) : RState :=
  increaseScore st.cellWeight st

/-- `Repairman::assembleCell(cell)` (a `void` method): on failure escalate
the Assembler's error; on success `markCellAsCounted(); towardMilestone(1);`. -/
def Repairman.assembleCell (okC : Bool) (eC : Error) (okM : Bool) (eM : Error)
    (st : RState) : RState :=
  let st1 := callAssembler AOp.assembleCell okC st
  if okC then
    Repairman.towardMilestone okM eM 1 (Repairman.markCellAsCounted st1)
  else
    (Repairman.tryUpgrateAssemblerError eC st1).2

/-- `Repairman::markCellCount(cellCount)`: `m_cellWeight = cellCount > 0 ?
(double) m_pageWeight / cellCount : 0;` (plus the ghost record of the count
supplied). -/
def Repairman.markCellCount (cellCount : Int) (st : RState) : RState :=
  { st with
    cellWeight := if cellCount > 0 then st.pageWeight / (cellCount : ℚ) else 0
    lastCellCount := cellCount }

/-- `Repairman::setPageWeight(pageWeight)`: `m_pageWeight = pageWeight;`. -/
def Repairman.setPageWeight (pageWeight : ℚ) (st : RState) : RState :=
  { st with pageWeight := pageWeight }

/-- One command the session driver can issue to the orchestrator, carrying
the collaborator outcomes (oracles) the command will observe. -/
inductive Cmd where
  | checkEmpty (succeed : Bool) (fileSize : Nat) (ambient : Error)
  | startAssembling (ok : Bool) (e : Error)
  | table (okT : Bool) (eT : Error) (okM : Bool) (eM : Error)
  | cell (okC : Bool) (eC : Error) (okM : Bool) (eM : Error)
  | finish (okMile : Bool) (eMile : Error) (okAsm : Bool) (eAsm : Error)
  | pageWeight (w : ℚ)
  | cellCount (n : Int)

/-- Modelled from the spec: the session driver (the crawl loop and the
calling protocol live outside the given source file).  The caller performs
assemble operations only after `markAsAssembling` has succeeded, and "the
orchestrator stops issuing further assemble calls" once a Critical error
has been raised. -/
def runCmd (st : RState) : Cmd → RState
  | .checkEmpty s z a =>
      if st.criticalRaised then st
      else (Repairman.isEmptyDatabase s z a st).2
  | .startAssembling ok e =>
      if st.criticalRaised then st
      else (Repairman.markAsAssembling ok e st).2
  | .table okT eT okM eM =>
      if st.criticalRaised then st
      else if st.assembling then (Repairman.assembleTable okT eT okM eM st).2
      else st
  | .cell okC eC okM eM =>
      if st.criticalRaised then st
      else if st.assembling then Repairman.assembleCell okC eC okM eM st
      else st
  | .finish okMile eMile okAsm eAsm =>
      if st.criticalRaised then st
      else if st.assembling then
        (Repairman.markAsAssembled okMile eMile okAsm eAsm st).2
      else st
  | .pageWeight w =>
      if st.criticalRaised then st
      else Repairman.setPageWeight w st
  | .cellCount n =>
      if st.criticalRaised then st
      else Repairman.markCellCount n st

/-- Run a whole session: fold the driver over a list of commands. -/
def runSession (cmds : List Cmd) (st : RState) : RState :=
  cmds.foldl runCmd st

/-- Number of recorded Assembler calls of a given operation. -/
def countOp (op : AOp) (st : RState) : Nat :=
  (st.calls.filter (fun c => c.op = op)).length

/-- Number of checkpoint attempts: recorded calls to the Assembler's
`markAsMilestone`. -/
def milestoneCalls (st : RState) : Nat :=
  countOp AOp.markAsMilestone st

/-!  Helper lemmas: canonical forms of the leaf operations.  -/

theorem tryUpgradeError_snd (e : Error) (st : RState) :
    (tryUpgradeError e st).2 =
      { st with
        broadcast := st.broadcast ++ [e]
        criticalRaised :=
          if e.level = Level.Critical then true else st.criticalRaised
        score := if e.level = Level.Critical then 1 else st.score } := by
  unfold tryUpgradeError Repairman.onErrorCritical finishProgress
  dsimp only
  split <;> simp_all

theorem tryUpgradeError_fst (e : Error) (st : RState) :
    (tryUpgradeError e st).1 = e.level := by
  unfold tryUpgradeError
  dsimp only

theorem markAsMilestone_eq (ok : Bool) (e : Error) (st : RState) :
    Repairman.markAsMilestone ok e st =
      { st with
        mile := 0
        calls := st.calls ++
          [⟨AOp.markAsMilestone, ok, st.assembling, st.criticalRaised⟩]
        committedScore := if ok then st.score else st.committedScore
        broadcast := if ok then st.broadcast else st.broadcast ++ [e]
        criticalRaised :=
          if !ok ∧ e.level = Level.Critical then true else st.criticalRaised
        score := if !ok ∧ e.level = Level.Critical then 1 else st.score } := by
  unfold Repairman.markAsMilestone callAssembler markFractionalScoreCounted
    Repairman.tryUpgrateAssemblerError
  cases ok <;> simp [tryUpgradeError_snd]

theorem markAsAssembling_eq (ok : Bool) (e : Error) (st : RState) :
    Repairman.markAsAssembling ok e st =
      (ok,
       { st with
         calls := st.calls ++
           [⟨AOp.markAsAssembling, ok, st.assembling, st.criticalRaised⟩]
         assembling := if ok then true else st.assembling
         broadcast := if ok then st.broadcast else st.broadcast ++ [e]
         criticalRaised :=
           if !ok ∧ e.level = Level.Critical then true else st.criticalRaised
         score := if !ok ∧ e.level = Level.Critical then 1 else st.score }) := by
  unfold Repairman.markAsAssembling callAssembler
    Repairman.tryUpgrateAssemblerError
  cases ok <;> simp [tryUpgradeError_snd]

/-- A placeholder collaborator error used to instantiate oracles in
concrete runs. -/
def dummyError : Error :=
  { level := Level.Warning, code := Code.Other, message := "", infos := [] }

/-- A Fatal Corrupt error as the Page Source might report it. -/
def corruptFatal : Error :=
  { level := Level.Fatal, code := Code.Corrupt, message := "corrupted page",
    infos := [] }

/-- A Critical IOError as the Assembler might report it. -/
def criticalIOError : Error :=
  { level := Level.Critical, code := Code.IOError, message := "disk failure",
    infos := [] }

/-- C1: a call to `towardMilestone(amount)` performs a checkpoint (a call to
the Assembler's `markAsMilestone`) if and only if the milestone counter,
after being increased by `amount`, strictly exceeds the configured
threshold; the threshold defaults to 5000 at construction.  In particular a
counter equal to the threshold does not trigger and a counter equal to
threshold + 1 does. -/
theorem C1_towardMilestone_checkpoint_iff :
    ∀ (ok : Bool) (e : Error) (m : Int) (st : RState),
      milestoneCalls (Repairman.towardMilestone ok e m st) =
        milestoneCalls st + (if st.mile + m > st.milestone then 1 else 0)
      ∧ ∀ p : String, (Repairman.init p).milestone = 5000 := by
  intro ok e m st
  refine ⟨?_, fun p => rfl⟩
  unfold Repairman.towardMilestone
  dsimp only
  split
  · rename_i h
    simp [markAsMilestone_eq, milestoneCalls, countOp, List.filter_append, h]
  · rename_i h
    simp [milestoneCalls, countOp, h]

/-- C2: after every call to `markAsMilestone` the milestone counter equals
0, whatever the Assembler answered; on success the fractional score accrued
since the previous checkpoint is folded into the durable (committed) score,
on failure the Assembler's error is escalated (broadcast) and the counter
is still reset. -/
theorem C2_markAsMilestone_resets_counter :
    ∀ (ok : Bool) (e : Error) (st : RState),
      (Repairman.markAsMilestone ok e st).mile = 0
      ∧ (ok = true →
          (Repairman.markAsMilestone ok e st).committedScore = st.score
          ∧ (Repairman.markAsMilestone ok e st).score = st.score)
      ∧ (ok = false →
          (Repairman.markAsMilestone ok e st).broadcast = st.broadcast ++ [e]
          ∧ (Repairman.markAsMilestone ok e st).mile = 0) := by
  intro ok e st
  cases ok <;> simp [markAsMilestone_eq]

/-- Witness for C2 at a concrete input: a successful checkpoint on a fresh
session folds the score into the committed score, and a failed one resets
the counter while broadcasting the error. -/
theorem C2_markAsMilestone_resets_counter_witness :
    (Repairman.markAsMilestone true dummyError (Repairman.init "db")).committedScore
        = (Repairman.init "db").score
    ∧ (Repairman.markAsMilestone false criticalIOError
        (Repairman.init "db")).broadcast = [criticalIOError] :=
  ⟨((C2_markAsMilestone_resets_counter true dummyError
      (Repairman.init "db")).2.1 rfl).1,
   ((C2_markAsMilestone_resets_counter false criticalIOError
      (Repairman.init "db")).2.2 rfl).1⟩

/-- C4: a crawler error whose category code is `Corrupt` is downgraded to
Warning severity before reaching the escalation/broadcast point (and the
escalation point then reports Warning as the resulting severity), while an
Assembler error reaches the same escalation point with its level
unmodified. -/
theorem C4_corrupt_downgrade_policy :
    ∀ (e : Error) (st : RState),
      (e.code = Code.Corrupt →
        (Repairman.tryUpgradeCrawlerError e st).2.broadcast =
          st.broadcast ++ [{ e with level := Level.Warning }]
        ∧ (Repairman.tryUpgradeCrawlerError e st).1 = Level.Warning)
      ∧ (Repairman.tryUpgrateAssemblerError e st).2.broadcast =
          st.broadcast ++ [e]
      ∧ (Repairman.tryUpgrateAssemblerError e st).1 = e.level := by
  intro e st
  refine ⟨fun h => ?_, ?_, ?_⟩
  · unfold Repairman.tryUpgradeCrawlerError
    simp [h, tryUpgradeError_snd, tryUpgradeError_fst]
  · simp [Repairman.tryUpgrateAssemblerError, tryUpgradeError_snd]
  · simp [Repairman.tryUpgrateAssemblerError, tryUpgradeError_fst]

/-- Witness for C4 at a concrete input: a Fatal Corrupt crawler error is
broadcast at Warning severity. -/
theorem C4_corrupt_downgrade_policy_witness :
    (Repairman.tryUpgradeCrawlerError corruptFatal (Repairman.init "db")).2.broadcast
      = [{ corruptFatal with level := Level.Warning }] := by
  have h := (C4_corrupt_downgrade_policy corruptFatal (Repairman.init "db")).1 rfl
  simpa [Repairman.init] using h.1

/-- C5: `isEmptyDatabase` with probed size 0 and a successful probe
broadcasts exactly one Warning `Empty` error carrying the message
"Database is not found or empty." and the context `Path -> path`, and
returns true; with size 0 and a failed probe it escalates the ambient
threaded error at Critical severity and returns true; with non-zero size it
returns false and changes nothing. -/
theorem C5_isEmptyDatabase_cases :
    ∀ (succeed : Bool) (fileSize : Nat) (te : Error) (st : RState),
      (fileSize = 0 → succeed = true →
        Repairman.isEmptyDatabase succeed fileSize te st =
          (true, { st with broadcast := st.broadcast ++ [emptyError st.path] }))
      ∧ (fileSize = 0 → succeed = false →
          (Repairman.isEmptyDatabase succeed fileSize te st).1 = true
          ∧ (Repairman.isEmptyDatabase succeed fileSize te st).2.broadcast =
              st.broadcast ++ [{ te with level := Level.Critical }]
          ∧ (Repairman.isEmptyDatabase succeed fileSize te st).2.criticalRaised
              = true)
      ∧ (fileSize ≠ 0 →
          Repairman.isEmptyDatabase succeed fileSize te st = (false, st)) := by
  intro s z te st
  refine ⟨fun hz hs => ?_, fun hz hs => ?_, fun hz => ?_⟩
  · subst hz hs
    simp [Repairman.isEmptyDatabase]
  · subst hz hs
    simp [Repairman.isEmptyDatabase, setCriticalErrorWIthSharedThreadedError,
      tryUpgradeError_snd]
  · simp [Repairman.isEmptyDatabase, hz]

/-- Witness for C5 at concrete inputs: all three branches on a fresh
session bound to path "db". -/
theorem C5_isEmptyDatabase_cases_witness :
    Repairman.isEmptyDatabase true 0 dummyError (Repairman.init "db") =
      (true, { Repairman.init "db" with broadcast := [emptyError "db"] })
    ∧ (Repairman.isEmptyDatabase false 0 dummyError
        (Repairman.init "db")).2.broadcast =
        [{ dummyError with level := Level.Critical }]
    ∧ Repairman.isEmptyDatabase true 42 dummyError (Repairman.init "db") =
        (false, Repairman.init "db") := by
  refine ⟨?_, ?_, ?_⟩
  · have h := (C5_isEmptyDatabase_cases true 0 dummyError
      (Repairman.init "db")).1 rfl rfl
    simpa [Repairman.init] using h
  · have h := ((C5_isEmptyDatabase_cases false 0 dummyError
      (Repairman.init "db")).2.1 rfl rfl).2.1
    simpa [Repairman.init] using h
  · exact (C5_isEmptyDatabase_cases true 42 dummyError
      (Repairman.init "db")).2.2 (by decide)

/-- C10: `markCellCount(n)` with a negative `n` sets `cellWeight` to 0,
the same cell weight as `n = 0` (the guard tests `n > 0`, not `n = 0`),
and whenever `pageWeight` is non-negative the resulting `cellWeight` is
non-negative. -/
theorem C10_markCellCount_negative_count :
    ∀ (n : Int) (st : RState),
      (n < 0 →
        (Repairman.markCellCount n st).cellWeight = 0
        ∧ (Repairman.markCellCount n st).cellWeight =
            (Repairman.markCellCount 0 st).cellWeight)
      ∧ (0 ≤ st.pageWeight → 0 ≤ (Repairman.markCellCount n st).cellWeight) := by
  intro n st
  constructor
  · intro hn
    have h : ¬ n > 0 := by omega
    simp [Repairman.markCellCount, h]
  · intro hw
    unfold Repairman.markCellCount
    dsimp only
    split
    · rename_i h
      exact div_nonneg hw (by exact_mod_cast h.le)
    · exact le_refl 0

/-- Witness for C10 at a concrete input: `markCellCount(-3)` on a session
with page weight 7 yields cell weight 0, equal to that of
`markCellCount(0)`, and the cell weight is non-negative. -/
theorem C10_markCellCount_negative_count_witness :
    ((Repairman.markCellCount (-3)
        (Repairman.setPageWeight 7 (Repairman.init "db"))).cellWeight = 0
      ∧ (Repairman.markCellCount (-3)
          (Repairman.setPageWeight 7 (Repairman.init "db"))).cellWeight =
        (Repairman.markCellCount 0
          (Repairman.setPageWeight 7 (Repairman.init "db"))).cellWeight)
    ∧ 0 ≤ (Repairman.markCellCount (-3)
        (Repairman.setPageWeight 7 (Repairman.init "db"))).cellWeight :=
  ⟨(C10_markCellCount_negative_count (-3)
      (Repairman.setPageWeight 7 (Repairman.init "db"))).1 (by decide),
   (C10_markCellCount_negative_count (-3)
      (Repairman.setPageWeight 7 (Repairman.init "db"))).2 (by decide)⟩

/-- The session state after `setPageWeight(1)`, `markCellCount(2)`,
`setPageWeight(3)` on a fresh session. -/
def c6State : RState :=
  Repairman.setPageWeight 3
    (Repairman.markCellCount 2
      (Repairman.setPageWeight 1 (Repairman.init "db")))

/-- Counterexample to C6 as stated: after `setPageWeight(1)`,
`markCellCount(2)`, `setPageWeight(3)`, the most recently supplied cell
count is 2 > 0 but `cellWeight` is 1/2 while `pageWeight / cellCount` is
3/2 — `setPageWeight` does not recompute the derived weight. -/
theorem C6_counterexample :
    c6State.lastCellCount > 0
    ∧ c6State.cellWeight ≠ c6State.pageWeight / (c6State.lastCellCount : ℚ)
    ∧ c6State.cellWeight = 1 / 2
    ∧ c6State.pageWeight / (c6State.lastCellCount : ℚ) = 3 / 2 := by
  refine ⟨?_, ?_, ?_, ?_⟩ <;>
    norm_num [c6State, Repairman.setPageWeight, Repairman.markCellCount,
      Repairman.init]

/-- C6 amended: immediately after `markCellCount(n)` the cell weight equals
the pageWeight current at that call divided by `n` when `n > 0` (0
otherwise), and `setPageWeight` never updates `cellWeight`; the spec's
"at all times" invariant holds only until the next `setPageWeight`. -/
theorem C6_amended_cellWeight_derivation :
    ∀ (n : Int) (w : ℚ) (st : RState),
      (Repairman.markCellCount n st).cellWeight =
        (if 0 < n then st.pageWeight / (n : ℚ) else 0)
      ∧ (Repairman.markCellCount n st).lastCellCount = n
      ∧ (Repairman.setPageWeight w st).cellWeight = st.cellWeight := by
  intro n w st
  exact ⟨rfl, rfl, rfl⟩

/-- C3: `markAsAssembled` returns exactly the Assembler's final-commit
outcome (false when the final commit fails), yet in both cases the
completion score is finalized to exactly 1 and exactly one terminal
checkpoint attempt (one `markAsMilestone` Assembler call) and exactly one
final-commit attempt (one `markAsAssembled` Assembler call) are made. -/
theorem C3_markAsAssembled_always_finalizes :
    ∀ (okMile : Bool) (eMile : Error) (okAsm : Bool) (eAsm : Error)
      (st : RState),
      (Repairman.markAsAssembled okMile eMile okAsm eAsm st).1 = okAsm
      ∧ (Repairman.markAsAssembled okMile eMile okAsm eAsm st).2.score = 1
      ∧ milestoneCalls (Repairman.markAsAssembled okMile eMile okAsm eAsm st).2
          = milestoneCalls st + 1
      ∧ countOp AOp.markAsAssembled
          (Repairman.markAsAssembled okMile eMile okAsm eAsm st).2
          = countOp AOp.markAsAssembled st + 1 := by
  intro okMile eMile okAsm eAsm st
  unfold Repairman.markAsAssembled callAssembler finishProgress
  cases okAsm <;>
    simp [markAsMilestone_eq, Repairman.tryUpgrateAssemblerError,
      tryUpgradeError_snd, milestoneCalls, countOp, List.filter_append]

/-- A fresh session whose milestone threshold is configured to 5 instead of
the default 5000 (the C7 scenario of the spec). -/
def c7Start : RState :=
  { Repairman.init "db" with milestone := 5 }

/-- The C7 scenario state after `setPageWeight(0.1)`; `markCellCount(10)`. -/
def c7Setup : RState :=
  Repairman.markCellCount 10 (Repairman.setPageWeight (1 / 10) c7Start)

/-- One fully successful `assembleCell` call (the Assembler accepts the
cell, and any checkpoint it forces succeeds too). -/
def cellStep (st : RState) : RState :=
  Repairman.assembleCell true dummyError true dummyError st

/-- The C7 scenario state after ten successful `assembleCell` calls. -/
def c7Final : RState :=
  cellStep (cellStep (cellStep (cellStep (cellStep (cellStep (cellStep
    (cellStep (cellStep (cellStep c7Setup)))))))))

/-- Counterexample to C7 as stated: in the scenario `setPageWeight(0.1)`,
`markCellCount(10)`, threshold 5, ten successful `assembleCell` calls, the
Assembler's `markAsMilestone` is invoked exactly once (at the sixth cell,
when the counter first reaches 6 > 5), not twice: a counter equal to the
threshold does not trigger, so the tenth cell (counter 4 after the reset)
never reaches a second checkpoint. -/
theorem C7_counterexample :
    milestoneCalls c7Final ≠ 2 ∧ milestoneCalls c7Final = 1 := by
  constructor <;> decide

/-- C7 amended: in the scenario `setPageWeight(0.1)`, `markCellCount(10)`
with milestone threshold 5 and 1 unit per cell, `cellWeight = 0.01`, ten
successful `assembleCell` calls invoke the Assembler's `markAsMilestone`
exactly once, and the total credited score is 0.1. -/
theorem C7_amended_scenario :
    c7Setup.cellWeight = 1 / 100
    ∧ milestoneCalls c7Final = 1
    ∧ c7Final.score = 1 / 10 := by
  refine ⟨?_, by decide, ?_⟩
  · norm_num [c7Setup, c7Start, Repairman.markCellCount,
      Repairman.setPageWeight, Repairman.init]
  · norm_num [c7Final, cellStep, c7Setup, c7Start, Repairman.assembleCell,
      Repairman.towardMilestone, Repairman.markAsMilestone,
      Repairman.markCellAsCounted, increaseScore, markFractionalScoreCounted,
      callAssembler, Repairman.markCellCount, Repairman.setPageWeight,
      Repairman.init]

/-- Counterexample to C8 as stated: `assembleCell` cannot "return false" —
its C++ return type in `Repairman.cpp` is `void`, not `bool`, so the
failure path yields no return value at all. -/
theorem C8_counterexample :
    repairmanReturnType AOp.assembleCell = CppRet.void
    ∧ CppRet.void ≠ CppRet.bool :=
  ⟨rfl, by decide⟩

/-- C8 amended: on success `assembleCell` credits `cellWeight` to the score
before the checkpoint step (`markCellAsCounted` runs first, then
`towardMilestone(1)`) and advances the milestone counter by 1 unit; on
failure it escalates the Assembler's error, credits no progress
(score unchanged for a non-Critical error) and leaves the milestone counter
unchanged with no checkpoint attempted — but, the method being `void`, it
returns nothing rather than false. -/
theorem C8_assembleCell_behavior :
    ∀ (eC : Error) (okM : Bool) (eM : Error) (st : RState),
      Repairman.assembleCell true eC okM eM st =
        Repairman.towardMilestone okM eM 1
          (Repairman.markCellAsCounted (callAssembler AOp.assembleCell true st))
      ∧ (Repairman.markCellAsCounted st).score = st.score + st.cellWeight
      ∧ (st.mile + 1 ≤ st.milestone →
          (Repairman.assembleCell true eC okM eM st).score
              = st.score + st.cellWeight
          ∧ (Repairman.assembleCell true eC okM eM st).mile = st.mile + 1)
      ∧ (Repairman.assembleCell false eC okM eM st).mile = st.mile
      ∧ (Repairman.assembleCell false eC okM eM st).broadcast
          = st.broadcast ++ [eC]
      ∧ milestoneCalls (Repairman.assembleCell false eC okM eM st)
          = milestoneCalls st
      ∧ (eC.level ≠ Level.Critical →
          (Repairman.assembleCell false eC okM eM st).score = st.score) := by
  intro eC okM eM st
  refine ⟨rfl, rfl, fun h => ?_, ?_, ?_, ?_, fun h => ?_⟩
  · have hlt : ¬ st.mile + 1 > st.milestone := by omega
    unfold Repairman.assembleCell Repairman.towardMilestone
      Repairman.markCellAsCounted increaseScore callAssembler
    simp [hlt]
  · simp [Repairman.assembleCell, callAssembler,
      Repairman.tryUpgrateAssemblerError, tryUpgradeError_snd]
  · simp [Repairman.assembleCell, callAssembler,
      Repairman.tryUpgrateAssemblerError, tryUpgradeError_snd]
  · simp [Repairman.assembleCell, callAssembler,
      Repairman.tryUpgrateAssemblerError, tryUpgradeError_snd,
      milestoneCalls, countOp, List.filter_append]
  · simp [Repairman.assembleCell, callAssembler,
      Repairman.tryUpgrateAssemblerError, tryUpgradeError_snd, h]

/-- Witness for C8 at a concrete input: on a fresh session a successful
cell advances the counter to 1, and a failed cell with a Fatal error leaves
the score untouched. -/
theorem C8_assembleCell_behavior_witness :
    (Repairman.assembleCell true dummyError true dummyError
        (Repairman.init "db")).mile = (Repairman.init "db").mile + 1
    ∧ (Repairman.assembleCell false corruptFatal true dummyError
        (Repairman.init "db")).score = (Repairman.init "db").score :=
  ⟨((C8_assembleCell_behavior dummyError true dummyError
      (Repairman.init "db")).2.2.1 (by decide)).2,
   (C8_assembleCell_behavior corruptFatal true dummyError
      (Repairman.init "db")).2.2.2.2.2.2 (by decide)⟩

/-!  Calls-trace lemmas for the composite operations, used for the session
protocol claim.  -/

theorem isEmptyDatabase_snd_calls (s : Bool) (z : Nat) (a : Error)
    (st : RState) :
    ((Repairman.isEmptyDatabase s z a st).2).calls = st.calls := by
  unfold Repairman.isEmptyDatabase setCriticalErrorWIthSharedThreadedError
  split
  · split
    · rfl
    · simp [tryUpgradeError_snd]
  · rfl

theorem markAsAssembling_snd_calls (ok : Bool) (e : Error) (st : RState) :
    ((Repairman.markAsAssembling ok e st).2).calls =
      st.calls ++
        [⟨AOp.markAsAssembling, ok, st.assembling, st.criticalRaised⟩] := by
  rw [markAsAssembling_eq]

theorem towardMilestone_calls (ok : Bool) (e : Error) (m : Int)
    (st : RState) :
    (Repairman.towardMilestone ok e m st).calls =
      st.calls ++
        (if st.mile + m > st.milestone
          then [⟨AOp.markAsMilestone, ok, st.assembling, st.criticalRaised⟩]
          else []) := by
  unfold Repairman.towardMilestone
  dsimp only
  split <;> rename_i h <;> simp [markAsMilestone_eq, h]

theorem assembleTable_snd_calls (okT : Bool) (eT : Error) (okM : Bool)
    (eM : Error) (st : RState) :
    ((Repairman.assembleTable okT eT okM eM st).2).calls =
      st.calls ++ [⟨AOp.assembleTable, okT, st.assembling, st.criticalRaised⟩]
        ++ (if okT = true ∧ st.mile + 100 > st.milestone
            then [⟨AOp.markAsMilestone, okM, st.assembling, st.criticalRaised⟩]
            else []) := by
  unfold Repairman.assembleTable callAssembler
  cases okT
  · simp [Repairman.tryUpgrateAssemblerError, tryUpgradeError_snd]
  · simp [towardMilestone_calls]

theorem assembleCell_calls (okC : Bool) (eC : Error) (okM : Bool)
    (eM : Error) (st : RState) :
    (Repairman.assembleCell okC eC okM eM st).calls =
      st.calls ++ [⟨AOp.assembleCell, okC, st.assembling, st.criticalRaised⟩]
        ++ (if okC = true ∧ st.mile + 1 > st.milestone
            then [⟨AOp.markAsMilestone, okM, st.assembling, st.criticalRaised⟩]
            else []) := by
  unfold Repairman.assembleCell callAssembler Repairman.markCellAsCounted
    increaseScore
  cases okC
  · simp [Repairman.tryUpgrateAssemblerError, tryUpgradeError_snd]
  · simp [towardMilestone_calls]

theorem markAsAssembled_snd_calls (okMile : Bool) (eMile : Error)
    (okAsm : Bool) (eAsm : Error) (st : RState) :
    ((Repairman.markAsAssembled okMile eMile okAsm eAsm st).2).calls =
      st.calls ++
        [⟨AOp.markAsMilestone, okMile, st.assembling, st.criticalRaised⟩,
         ⟨AOp.markAsAssembled, okAsm, st.assembling,
          if !okMile ∧ eMile.level = Level.Critical then true
          else st.criticalRaised⟩] := by
  unfold Repairman.markAsAssembled callAssembler finishProgress
  cases okAsm <;>
    simp [markAsMilestone_eq, Repairman.tryUpgrateAssemblerError,
      tryUpgradeError_snd]

/-- The session protocol property of one recorded Assembler call: a write
happens only with assembling started, and the only write ever issued while
a Critical error stands raised is the terminal commit that
`Repairman::markAsAssembled` performs right after its own checkpoint
attempt. -/
def GoodCall (c : CallRec) : Prop :=
  (c.op.isWrite = true → c.assemblingAtCall = true)
  ∧ (c.criticalAtCall = true → c.op = AOp.markAsAssembled)

theorem goodCall_of_flags (op : AOp) (ok : Bool) (st : RState)
    (ha : st.assembling = true) (hc : st.criticalRaised = false) :
    GoodCall ⟨op, ok, st.assembling, st.criticalRaised⟩ := by
  constructor
  · intro _
    exact ha
  · intro h
    rw [hc] at h
    cases h

theorem goodCall_gate (ok : Bool) (st : RState)
    (hc : st.criticalRaised = false) :
    GoodCall ⟨AOp.markAsAssembling, ok, st.assembling, st.criticalRaised⟩ := by
  constructor
  · intro h
    simp [AOp.isWrite] at h
  · intro h
    rw [hc] at h
    cases h

theorem goodCall_assembled (ok a c : Bool) (ha : a = true) :
    GoodCall ⟨AOp.markAsAssembled, ok, a, c⟩ :=
  ⟨fun _ => ha, fun _ => rfl⟩

theorem runCmd_good (c : Cmd) (st : RState)
    (hinv : ∀ r ∈ st.calls, GoodCall r) :
    ∀ r ∈ (runCmd st c).calls, GoodCall r := by
  by_cases hcr : st.criticalRaised = true
  · cases c <;> intro r hr <;> rw [runCmd, if_pos hcr] at hr <;> exact hinv r hr
  · have hc0 : st.criticalRaised = false := by simpa using hcr
    cases c with
    | checkEmpty s z a =>
        intro r hr
        rw [runCmd, if_neg hcr, isEmptyDatabase_snd_calls] at hr
        exact hinv r hr
    | startAssembling ok e =>
        intro r hr
        rw [runCmd, if_neg hcr, markAsAssembling_snd_calls] at hr
        rcases List.mem_append.1 hr with hr0 | hr1
        · exact hinv r hr0
        · rw [List.mem_singleton.1 hr1]
          exact goodCall_gate ok st hc0
    | table okT eT okM eM =>
        intro r hr
        rw [runCmd, if_neg hcr] at hr
        by_cases hasm : st.assembling = true
        · rw [if_pos hasm, assembleTable_snd_calls] at hr
          rcases List.mem_append.1 hr with hr01 | hr2
          · rcases List.mem_append.1 hr01 with hr0 | hr1
            · exact hinv r hr0
            · rw [List.mem_singleton.1 hr1]
              exact goodCall_of_flags _ _ st hasm hc0
          · split at hr2
            · rw [List.mem_singleton.1 hr2]
              exact goodCall_of_flags _ _ st hasm hc0
            · cases hr2
        · rw [if_neg hasm] at hr
          exact hinv r hr
    | cell okC eC okM eM =>
        intro r hr
        rw [runCmd, if_neg hcr] at hr
        by_cases hasm : st.assembling = true
        · rw [if_pos hasm, assembleCell_calls] at hr
          rcases List.mem_append.1 hr with hr01 | hr2
          · rcases List.mem_append.1 hr01 with hr0 | hr1
            · exact hinv r hr0
            · rw [List.mem_singleton.1 hr1]
              exact goodCall_of_flags _ _ st hasm hc0
          · split at hr2
            · rw [List.mem_singleton.1 hr2]
              exact goodCall_of_flags _ _ st hasm hc0
            · cases hr2
        · rw [if_neg hasm] at hr
          exact hinv r hr
    | finish okMile eMile okAsm eAsm =>
        intro r hr
        rw [runCmd, if_neg hcr] at hr
        by_cases hasm : st.assembling = true
        · rw [if_pos hasm, markAsAssembled_snd_calls] at hr
          rcases List.mem_append.1 hr with hr0 | hr1
          · exact hinv r hr0
          · rcases List.mem_cons.1 hr1 with hq | hr2
            · rw [hq]
              exact goodCall_of_flags _ _ st hasm hc0
            · rw [List.mem_singleton.1 hr2]
              exact goodCall_assembled _ _ _ hasm
        · rw [if_neg hasm] at hr
          exact hinv r hr
    | pageWeight w =>
        intro r hr
        rw [runCmd, if_neg hcr] at hr
        exact hinv r hr
    | cellCount n =>
        intro r hr
        rw [runCmd, if_neg hcr] at hr
        exact hinv r hr

theorem runSession_good (cmds : List Cmd) (st : RState)
    (hinv : ∀ r ∈ st.calls, GoodCall r) :
    ∀ r ∈ (runSession cmds st).calls, GoodCall r := by
  induction cmds generalizing st with
  | nil => exact hinv
  | cons c cs ih => exact ih (runCmd st c) (runCmd_good c st hinv)

/-- Formalization of C9 as stated, as a decidable check over the recorded
Assembler calls of a session: every write-operation call happened with
assembling started and with no Critical error yet raised. -/
def writesProperlyFramed (st : RState) : Bool :=
  st.calls.all fun c =>
    !c.op.isWrite || (c.assemblingAtCall && !c.criticalAtCall)

/-- A session in which the Assembler's milestone commit inside
`markAsAssembled` fails with a Critical error while the final commit
succeeds. -/
def c9Session : List Cmd :=
  [Cmd.startAssembling true dummyError,
   Cmd.finish false criticalIOError true dummyError]

/-- Counterexample to C9 as stated: if the checkpoint performed at the
start of `markAsAssembled` fails and its error is escalated at Critical
severity, `Repairman::markAsAssembled` still invokes the Assembler's
`markAsAssembled` — a write operation issued after a Critical error has
been raised (the last recorded call carries `criticalAtCall = true`). -/
theorem C9_counterexample :
    writesProperlyFramed (runSession c9Session (Repairman.init "db")) = false
    ∧ (runSession c9Session (Repairman.init "db")).calls.getLast? =
        some ⟨AOp.markAsAssembled, true, true, true⟩ := by
  constructor <;> decide

/-- C9 amended: in every session the orchestrator never invokes an
Assembler write operation before `markAsAssembling` has succeeded, and
after a Critical error has been raised the only write it can still issue is
the terminal commit inside `markAsAssembled`, which by design runs even
when the immediately preceding terminal checkpoint escalated a Critical
error. -/
theorem C9_amended_session_protocol :
    ∀ (cmds : List Cmd) (p : String),
      ∀ r ∈ (runSession cmds (Repairman.init p)).calls, GoodCall r := by
  intro cmds p
  apply runSession_good
  intro r hr
  cases hr

/-- Witness for C9 amended at a concrete input: in a session that starts
assembling and then assembles one cell, the recorded `assembleCell` call is
properly framed. -/
theorem C9_amended_session_protocol_witness :
    GoodCall ⟨AOp.assembleCell, true, true, false⟩ :=
  C9_amended_session_protocol
    [Cmd.startAssembling true dummyError,
     Cmd.cell true dummyError true dummyError] "db"
    ⟨AOp.assembleCell, true, true, false⟩ (by decide)

end WCDB
